import Mathlib

/-! ozone-wayland: `OzoneDisplayChannelHost`

A shallow embedding of `ozone/impl/ipc/display_channel_host.cc`.

The host object owns two members, `channel_` (a possibly-null `IPC::Channel*`)
and `deferred_messages_` (a `std::queue<IPC::Message*>`).  Everything the host
does to its collaborators is recorded in three observation logs kept next to
those members: the calls made on `channel_->Send`, the tasks posted to the IO
thread, and the calls made on `dispatcher_`.

Collaborators that live outside `display_channel_host.cc` are parameters:
* the answer of `IPC::Channel::Send` (any function of the channel, the calls
  made so far and the message),
* whether `DCHECK` is compiled in,
* the numeric value of `content::PROCESS_TYPE_GPU`,
* what `GpuProcessHost::Get` returns and whether the returned host already has
  a channel to hand to `OnFilterAdded` when `AddFilter` is called.
-/

namespace ozonewayland

/-! ## Data carried by messages -/

/-- A C `float` argument.  The host only forwards such values, so the value is
carried as its 32-bit pattern and never computed with. -/
structure CFloat where
  bits : Nat
deriving DecidableEq, Repr

/-- A `base::string16`: the sequence of its UTF-16 code units. -/
abbrev string16 := List Nat

/-- The enumeration `WidgetState`, carried as its underlying value. -/
abbrev WidgetState := Nat

/-- The enumeration `WidgetType`, carried as its underlying value. -/
abbrev WidgetType := Nat

/-- The enumeration `ui::EventType`, carried as its underlying value. -/
abbrev EventType := Nat

/-- The enumeration `ui::EventFlags`, carried as its underlying value. -/
abbrev EventFlags := Nat

/-- This should be same as defined in display_channel. -/
def CHANNEL_ROUTE_ID : Int := -0x1

/-- Modelled from the spec: the message classes are declared in
`ozone/impl/ipc/messages.h`, outside `display_channel_host.cc`.  The spec names three outbound commands
(SetState, SetTitle, SetAttributes) and eight inbound events; the tags below are
the message classes the source constructs and dispatches on, and each payload has
the parameter list of the source function that builds or handles it.  Any other
message type is `Unknown` with its type id. -/
inductive Body where
  | WaylandWindow_State (w : Nat) (state : WidgetState) (width height : Nat)
  | WaylandWindow_Title (w : Nat) (title : string16)
  | WaylandWindow_Attributes (widget parent x y : Nat) (type : WidgetType)
  | WaylandInput_MotionNotify (x y : CFloat)
  | WaylandInput_ButtonNotify (handle : Nat) (type : EventType) (flags : EventFlags)
      (x y : CFloat)
  | WaylandInput_AxisNotify (x y : CFloat) (xoffset yoffset : Int)
  | WaylandInput_PointerEnter (handle : Nat) (x y : CFloat)
  | WaylandInput_PointerLeave (handle : Nat) (x y : CFloat)
  | WaylandInput_KeyNotify (type : EventType) (code modifiers : Nat)
  | WaylandInput_OutputSize (width height : Nat)
  | WaylandInput_CloseWidget (handle : Nat)
  | Unknown (type : Nat)
deriving DecidableEq, Repr

/-- An `IPC::Message`: routing id, typed content, and the unblock bit of its
header flags. -/
structure Message where
  routing_id : Int
  body : Body
  unblock : Bool
deriving DecidableEq, Repr

/-- `IPC::Message::set_unblock`. -/
def Message.set_unblock (m : Message) (unblock : Bool) : Message :=
  { m with unblock := unblock }

/-- `new WaylandWindow_State(routing_id, w, state, width, height)`. -/
def new_WaylandWindow_State (routing_id : Int) (w : Nat) (state : WidgetState)
    (width height : Nat) : Message :=
  { routing_id := routing_id, body := .WaylandWindow_State w state width height,
    unblock := false }

/-- `new WaylandWindow_Title(routing_id, w, title)`. -/
def new_WaylandWindow_Title (routing_id : Int) (w : Nat) (title : string16) : Message :=
  { routing_id := routing_id, body := .WaylandWindow_Title w title, unblock := false }

/-- `new WaylandWindow_Attributes(routing_id, widget, parent, x, y, type)`. -/
def new_WaylandWindow_Attributes (routing_id : Int) (widget parent x y : Nat)
    (type : WidgetType) : Message :=
  { routing_id := routing_id, body := .WaylandWindow_Attributes widget parent x y type,
    unblock := false }

/-! ## Collaborators -/

/-- A call received by `dispatcher_` (`EventConverterOzoneWayland`). -/
inductive SinkCall where
  | MotionNotify (x y : CFloat)
  | ButtonNotify (handle : Nat) (type : EventType) (flags : EventFlags) (x y : CFloat)
  | AxisNotify (x y : CFloat) (xoffset yoffset : Int)
  | PointerEnter (handle : Nat) (x y : CFloat)
  | PointerLeave (handle : Nat) (x y : CFloat)
  | KeyNotify (type : EventType) (code modifiers : Nat)
  | OutputSizeChanged (width height : Nat)
  | CloseWidget (handle : Nat)
deriving DecidableEq, Repr

/-- A closure handed to `content::BrowserThread::PostTask(content::BrowserThread::IO, ..)`:
the bound member function and its bound arguments. -/
inductive PostedTask where
  | UpdateConnection
  | SetWidgetState (w : Nat) (state : WidgetState) (width height : Nat)
  | SetWidgetTitle (w : Nat) (title : string16)
  | SetWidgetAttributes (widget parent x y : Nat) (type : WidgetType)
deriving DecidableEq, Repr

/-- What `content::GpuProcessHost::Get` hands back when it is not `NULL`: `channel` is
the `IPC::Channel*` the process host passes to `OnFilterAdded` from `AddFilter`, when
it has one at that moment. -/
structure GpuProcessHost where
  channel : Option Nat
deriving DecidableEq, Repr

/-- The part of `content::ChildProcessData` the host reads. -/
structure ChildProcessData where
  process_type : Int
deriving DecidableEq, Repr

/-- A call observed on `IPC::Channel::Send`: the channel and the message as it was
when handed over. -/
abbrev ChannelCall := Nat × Message

/-- The surroundings of the host. -/
structure Env where
  /-- Whether `DCHECK` is compiled in. -/
  dcheck_on : Bool
  /-- The boolean `IPC::Channel::Send` answers, given the channel, the calls made on
  channels so far and the message. -/
  channel_send : Nat → List ChannelCall → Message → Bool
  /-- The value of `content::PROCESS_TYPE_GPU`. -/
  PROCESS_TYPE_GPU : Int

/-- Ways a call can fail to return. -/
inductive Fault where
  /-- `DCHECK(channel_)` in `OnChannelEstablished`. -/
  | dcheck_channel
  /-- `DCHECK(!channel_)` in `UpdateConnection`. -/
  | dcheck_not_channel
  /-- `DCHECK(host)` in `UpdateConnection`. -/
  | dcheck_host
  /-- `DCHECK(content::BrowserThread::CurrentlyOn(content::BrowserThread::IO))`. -/
  | dcheck_thread
  /-- `host->AddFilter(this)` with `host == NULL`. -/
  | null_host
  /-- The `while` loop of `OnChannelEstablished` was still running when the step
  budget ran out. -/
  | out_of_fuel
deriving DecidableEq, Repr

/-! ## The host -/

/-- The object `OzoneDisplayChannelHost` together with the observation logs. -/
structure OzoneDisplayChannelHost where
  /-- Member `channel_`; `none` is `NULL`. -/
  channel_ : Option Nat
  /-- Member `deferred_messages_`; the head is `front()`, `push` appends. -/
  deferred_messages_ : List Message
  /-- Calls made on `channel_->Send`, oldest first. -/
  channel_log : List ChannelCall
  /-- Tasks posted to the IO thread, oldest first. -/
  io_tasks : List PostedTask
  /-- Calls made on `dispatcher_`, oldest first. -/
  dispatcher_log : List SinkCall
deriving DecidableEq, Repr

/-- `content::BrowserThread::PostTask(content::BrowserThread::IO, FROM_HERE, task)`. -/
def PostTask (s : OzoneDisplayChannelHost) (task : PostedTask) : OzoneDisplayChannelHost :=
  { s with io_tasks := s.io_tasks ++ [task] }

/-- `OzoneDisplayChannelHost::EstablishChannel`. -/
def EstablishChannel (s : OzoneDisplayChannelHost) : OzoneDisplayChannelHost :=
  match s.channel_ with
  | some _ => s
  | none => PostTask s .UpdateConnection

/-- The member initialisers of the constructor: `channel_(NULL)`,
`deferred_messages_()`, with nothing observed yet. -/
def members_init : OzoneDisplayChannelHost :=
  { channel_ := none, deferred_messages_ := [], channel_log := [], io_tasks := [],
    dispatcher_log := [] }

/-- `OzoneDisplayChannelHost::OzoneDisplayChannelHost`: the member initialisers, then
the body, whose only effect on the object is `EstablishChannel()`. -/
def construct : OzoneDisplayChannelHost :=
  EstablishChannel members_init

/-- `OzoneDisplayChannelHost::Send`. -/
def Send (env : Env) (s : OzoneDisplayChannelHost) (message : Message) :
    Bool × OzoneDisplayChannelHost :=
  match s.channel_ with
  | none => (true, { s with deferred_messages_ := s.deferred_messages_ ++ [message] })
  | some channel =>
    let message := message.set_unblock true
    (env.channel_send channel s.channel_log message,
      { s with channel_log := s.channel_log ++ [(channel, message)] })

/-- One pass through the body of the `while` loop of `OnChannelEstablished`:
`Send(deferred_messages_.front()); deferred_messages_.pop();`. -/
def flush_body (env : Env) (s : OzoneDisplayChannelHost) (front : Message) :
    OzoneDisplayChannelHost :=
  let s1 := (Send env s front).2
  { s1 with deferred_messages_ := s1.deferred_messages_.tail }

/-- The `while (!deferred_messages_.empty())` loop of `OnChannelEstablished`, run for at
most `fuel` passes; `none` when the loop has not ended by then. -/
def flush_loop (env : Env) : Nat → OzoneDisplayChannelHost → Option OzoneDisplayChannelHost
  | 0, s => if s.deferred_messages_.isEmpty then some s else none
  | fuel + 1, s =>
    match s.deferred_messages_ with
    | [] => some s
    | front :: _ => flush_loop env fuel (flush_body env s front)

/-- `OzoneDisplayChannelHost::OnChannelEstablished`. -/
def OnChannelEstablished (env : Env) (fuel : Nat) (s : OzoneDisplayChannelHost) :
    Except Fault OzoneDisplayChannelHost :=
  if env.dcheck_on && s.channel_.isNone then .error .dcheck_channel
  else
    match flush_loop env fuel s with
    | some s' => .ok s'
    | none => .error .out_of_fuel

/-- `OzoneDisplayChannelHost::OnFilterAdded`. -/
def OnFilterAdded (s : OzoneDisplayChannelHost) (channel : Nat) : OzoneDisplayChannelHost :=
  { s with channel_ := some channel }

/-- `OzoneDisplayChannelHost::OnChannelClosing`. -/
def OnChannelClosing (s : OzoneDisplayChannelHost) : OzoneDisplayChannelHost :=
  { s with channel_ := none }

/-- `host->AddFilter(this)` for a non-null `host`: the process host registers the filter
and, when it has a channel, calls `OnFilterAdded` with it. -/
def AddFilter (s : OzoneDisplayChannelHost) (host : GpuProcessHost) : OzoneDisplayChannelHost :=
  match host.channel with
  | some channel => OnFilterAdded s channel
  | none => s

/-- `OzoneDisplayChannelHost::UpdateConnection`; `host` is what
`content::GpuProcessHost::Get` returned (`none` is `NULL`). -/
def UpdateConnection (env : Env) (fuel : Nat) (s : OzoneDisplayChannelHost)
    (host : Option GpuProcessHost) : Except Fault OzoneDisplayChannelHost :=
  if env.dcheck_on && s.channel_.isSome then .error .dcheck_not_channel
  else
    match host with
    | none => if env.dcheck_on then .error .dcheck_host else .error .null_host
    | some host => OnChannelEstablished env fuel (AddFilter s host)

/-- `OzoneDisplayChannelHost::BrowserChildProcessHostConnected`. -/
def BrowserChildProcessHostConnected (env : Env) (s : OzoneDisplayChannelHost)
    (data : ChildProcessData) : OzoneDisplayChannelHost :=
  if data.process_type = env.PROCESS_TYPE_GPU then EstablishChannel s else s

/-- `OzoneDisplayChannelHost::SetWidgetState`; `on_io_thread` is
`content::BrowserThread::CurrentlyOn(content::BrowserThread::IO)`. -/
def SetWidgetState (env : Env) (on_io_thread : Bool) (s : OzoneDisplayChannelHost)
    (w : Nat) (state : WidgetState) (width height : Nat) : OzoneDisplayChannelHost :=
  if !on_io_thread then PostTask s (.SetWidgetState w state width height)
  else (Send env s (new_WaylandWindow_State CHANNEL_ROUTE_ID w state width height)).2

/-- `OzoneDisplayChannelHost::SetWidgetTitle`. -/
def SetWidgetTitle (env : Env) (on_io_thread : Bool) (s : OzoneDisplayChannelHost)
    (w : Nat) (title : string16) : OzoneDisplayChannelHost :=
  if !on_io_thread then PostTask s (.SetWidgetTitle w title)
  else (Send env s (new_WaylandWindow_Title CHANNEL_ROUTE_ID w title)).2

/-- `OzoneDisplayChannelHost::SetWidgetAttributes`. -/
def SetWidgetAttributes (env : Env) (on_io_thread : Bool) (s : OzoneDisplayChannelHost)
    (widget parent x y : Nat) (type : WidgetType) : OzoneDisplayChannelHost :=
  if !on_io_thread then PostTask s (.SetWidgetAttributes widget parent x y type)
  else (Send env s (new_WaylandWindow_Attributes CHANNEL_ROUTE_ID widget parent x y type)).2

/-- A call on `dispatcher_`. -/
def dispatch (s : OzoneDisplayChannelHost) (call : SinkCall) : OzoneDisplayChannelHost :=
  { s with dispatcher_log := s.dispatcher_log ++ [call] }

/-- `OzoneDisplayChannelHost::OnMotionNotify`. -/
def OnMotionNotify (s : OzoneDisplayChannelHost) (x y : CFloat) : OzoneDisplayChannelHost :=
  dispatch s (.MotionNotify x y)

/-- `OzoneDisplayChannelHost::OnButtonNotify`. -/
def OnButtonNotify (s : OzoneDisplayChannelHost) (handle : Nat) (type : EventType)
    (flags : EventFlags) (x y : CFloat) : OzoneDisplayChannelHost :=
  dispatch s (.ButtonNotify handle type flags x y)

/-- `OzoneDisplayChannelHost::OnAxisNotify`. -/
def OnAxisNotify (s : OzoneDisplayChannelHost) (x y : CFloat) (xoffset yoffset : Int) :
    OzoneDisplayChannelHost :=
  dispatch s (.AxisNotify x y xoffset yoffset)

/-- `OzoneDisplayChannelHost::OnPointerEnter`. -/
def OnPointerEnter (s : OzoneDisplayChannelHost) (handle : Nat) (x y : CFloat) :
    OzoneDisplayChannelHost :=
  dispatch s (.PointerEnter handle x y)

/-- `OzoneDisplayChannelHost::OnPointerLeave`. -/
def OnPointerLeave (s : OzoneDisplayChannelHost) (handle : Nat) (x y : CFloat) :
    OzoneDisplayChannelHost :=
  dispatch s (.PointerLeave handle x y)

/-- `OzoneDisplayChannelHost::OnKeyNotify`. -/
def OnKeyNotify (s : OzoneDisplayChannelHost) (type : EventType) (code modifiers : Nat) :
    OzoneDisplayChannelHost :=
  dispatch s (.KeyNotify type code modifiers)

/-- `OzoneDisplayChannelHost::OnOutputSizeChanged`. -/
def OnOutputSizeChanged (s : OzoneDisplayChannelHost) (width height : Nat) :
    OzoneDisplayChannelHost :=
  dispatch s (.OutputSizeChanged width height)

/-- `OzoneDisplayChannelHost::OnCloseWidget`. -/
def OnCloseWidget (s : OzoneDisplayChannelHost) (handle : Nat) : OzoneDisplayChannelHost :=
  dispatch s (.CloseWidget handle)

/-- `OzoneDisplayChannelHost::OnMessageReceived`.  The message map switches on the
message type; each `IPC_MESSAGE_HANDLER` line unpacks the payload and calls the named
member with it, and `IPC_MESSAGE_UNHANDLED` is the default case. -/
def OnMessageReceived (env : Env) (on_io_thread : Bool) (s : OzoneDisplayChannelHost)
    (message : Message) : Except Fault (Bool × OzoneDisplayChannelHost) :=
  if env.dcheck_on && !on_io_thread then .error .dcheck_thread
  else
    match message.body with
    | .WaylandInput_MotionNotify x y => .ok (true, OnMotionNotify s x y)
    | .WaylandInput_ButtonNotify handle type flags x y =>
      .ok (true, OnButtonNotify s handle type flags x y)
    | .WaylandInput_AxisNotify x y xoffset yoffset =>
      .ok (true, OnAxisNotify s x y xoffset yoffset)
    | .WaylandInput_PointerEnter handle x y => .ok (true, OnPointerEnter s handle x y)
    | .WaylandInput_PointerLeave handle x y => .ok (true, OnPointerLeave s handle x y)
    | .WaylandInput_KeyNotify type code modifiers =>
      .ok (true, OnKeyNotify s type code modifiers)
    | .WaylandInput_OutputSize width height => .ok (true, OnOutputSizeChanged s width height)
    | .WaylandInput_CloseWidget handle => .ok (true, OnCloseWidget s handle)
    | _ => .ok (false, s)

/-! ## Sequences of calls -/

/-- A call made on the host from outside. -/
inductive Op where
  | Send (message : Message)
  | EstablishChannel
  | UpdateConnection (host : Option GpuProcessHost)
  | OnFilterAdded (channel : Nat)
  | OnChannelClosing
  | BrowserChildProcessHostConnected (data : ChildProcessData)
deriving DecidableEq, Repr

/-- The host after one call, or the fault that stopped the call. -/
def step (env : Env) (fuel : Nat) (s : OzoneDisplayChannelHost) :
    Op → Except Fault OzoneDisplayChannelHost
  | .Send message => .ok (Send env s message).2
  | .EstablishChannel => .ok (EstablishChannel s)
  | .UpdateConnection host => UpdateConnection env fuel s host
  | .OnFilterAdded channel => .ok (OnFilterAdded s channel)
  | .OnChannelClosing => .ok (OnChannelClosing s)
  | .BrowserChildProcessHostConnected data => .ok (BrowserChildProcessHostConnected env s data)

/-- The host after a sequence of calls, each started when the one before has returned. -/
def run (env : Env) (fuel : Nat) :
    OzoneDisplayChannelHost → List Op → Except Fault OzoneDisplayChannelHost
  | s, [] => .ok s
  | s, op :: ops =>
    match step env fuel s op with
    | .ok s' => run env fuel s' ops
    | .error fault => .error fault

/-- The messages a sequence of calls passed to `Send`, in call order. -/
def sent_messages : List Op → List Message
  | [] => []
  | .Send message :: ops => message :: sent_messages ops
  | _ :: ops => sent_messages ops

/-- `Send` called on each message of a list in turn. -/
def send_all (env : Env) (s : OzoneDisplayChannelHost) (msgs : List Message) :
    OzoneDisplayChannelHost :=
  msgs.foldl (fun s message => (Send env s message).2) s

/-- `EstablishChannel` called `n` times in a row. -/
def establish_times : Nat → OzoneDisplayChannelHost → OzoneDisplayChannelHost
  | 0, s => s
  | n + 1, s => establish_times n (EstablishChannel s)

/-- Whether a call is `OnFilterAdded` made on its own, outside `UpdateConnection`. -/
def Op.is_attach : Op → Bool
  | .OnFilterAdded _ => true
  | _ => false

/-- Whether a call is `Send`, an `UpdateConnection` in which a process host is there and
attaches a channel, or `OnChannelClosing`. -/
def Op.is_send_connect_close : Op → Bool
  | .Send _ => true
  | .UpdateConnection (some host) => host.channel.isSome
  | .OnChannelClosing => true
  | _ => false

/-- What a message is, apart from the unblock bit that `Send` sets on the way out. -/
def Message.content (m : Message) : Int × Body :=
  (m.routing_id, m.body)

/-- The message as the channel sees it. -/
def on_wire (channel : Nat) (m : Message) : ChannelCall :=
  (channel, m.set_unblock true)

/-- Whether a message type is one of the eight the message map has a handler for. -/
def Body.recognized : Body → Bool
  | .WaylandInput_MotionNotify .. => true
  | .WaylandInput_ButtonNotify .. => true
  | .WaylandInput_AxisNotify .. => true
  | .WaylandInput_PointerEnter .. => true
  | .WaylandInput_PointerLeave .. => true
  | .WaylandInput_KeyNotify .. => true
  | .WaylandInput_OutputSize .. => true
  | .WaylandInput_CloseWidget .. => true
  | _ => false

/-- The bookkeeping that ties the host to the list `hist` of messages passed to `Send`
so far: a set `channel_` comes with an empty queue, and `hist` splits into a front part
that the channels have seen (as sent, unblock bit set) and the rest, which is the queue. -/
def Accounted (s : OzoneDisplayChannelHost) (hist : List Message) : Prop :=
  (s.channel_.isSome = true → s.deferred_messages_ = []) ∧
  ∃ handed : List Message, hist = handed ++ s.deferred_messages_ ∧
    s.channel_log.map Prod.snd = handed.map (fun m => m.set_unblock true)

/-- Whether a call is an `UpdateConnection` in which a process host is there and
attaches a channel. -/
def Op.is_connect : Op → Bool
  | .UpdateConnection (some host) => host.channel.isSome
  | _ => false

/-- A posted task run by the IO thread: the bound member function is called with the
bound arguments, `CurrentlyOn(IO)` being true; `host` is what `GpuProcessHost::Get`
returns should the task be `UpdateConnection`. -/
def run_task (env : Env) (fuel : Nat) (host : Option GpuProcessHost)
    (s : OzoneDisplayChannelHost) : PostedTask → Except Fault OzoneDisplayChannelHost
  | .UpdateConnection => UpdateConnection env fuel s host
  | .SetWidgetState w state width height => .ok (SetWidgetState env true s w state width height)
  | .SetWidgetTitle w title => .ok (SetWidgetTitle env true s w title)
  | .SetWidgetAttributes widget parent x y type =>
    .ok (SetWidgetAttributes env true s widget parent x y type)

/-- The command `setWidgetState` in the spec's words: build the State command with
route -1 from the arguments and call the send path. -/
def spec_setWidgetState (env : Env) (s : OzoneDisplayChannelHost) (w : Nat)
    (state : WidgetState) (width height : Nat) : OzoneDisplayChannelHost :=
  (Send env s { routing_id := -1, body := .WaylandWindow_State w state width height,
                unblock := false }).2

/-- The command `setWidgetTitle` in the spec's words: build the Title command with
route -1 from the arguments and call the send path. -/
def spec_setWidgetTitle (env : Env) (s : OzoneDisplayChannelHost) (w : Nat)
    (title : string16) : OzoneDisplayChannelHost :=
  (Send env s { routing_id := -1, body := .WaylandWindow_Title w title, unblock := false }).2

/-- The command `setWidgetAttributes` in the spec's words: build the Attributes command
with route -1 from the arguments and call the send path. -/
def spec_setWidgetAttributes (env : Env) (s : OzoneDisplayChannelHost)
    (widget parent x y : Nat) (type : WidgetType) : OzoneDisplayChannelHost :=
  (Send env s { routing_id := -1, body := .WaylandWindow_Attributes widget parent x y type,
                unblock := false }).2

/-- The host after `k` passes through the body of the `while` loop of
`OnChannelEstablished`, the loop ending early when the queue is found empty. -/
def flush_passes (env : Env) : Nat → OzoneDisplayChannelHost → OzoneDisplayChannelHost
  | 0, s => s
  | k + 1, s =>
    match s.deferred_messages_ with
    | [] => s
    | front :: _ => flush_passes env k (flush_body env s front)

/-- `OzoneDisplayChannelHost::OnChannelEstablished` once more, keeping the host also
when the call stops at a fault: the host as the call leaves it, and the fault that
stopped it, if any.  A failed `DCHECK` stops the call before the statement after it. -/
def OnChannelEstablished_leaving (env : Env) (fuel : Nat) (s : OzoneDisplayChannelHost) :
    OzoneDisplayChannelHost × Option Fault :=
  if env.dcheck_on && s.channel_.isNone then (s, some .dcheck_channel)
  else
    let s' := flush_passes env fuel s
    if s'.deferred_messages_.isEmpty then (s', none) else (s', some .out_of_fuel)

/-- `OzoneDisplayChannelHost::UpdateConnection` once more, keeping the host also when
the call stops at a fault: the host as the call leaves it, and the fault that stopped
it, if any. -/
def UpdateConnection_leaving (env : Env) (fuel : Nat) (s : OzoneDisplayChannelHost)
    (host : Option GpuProcessHost) : OzoneDisplayChannelHost × Option Fault :=
  if env.dcheck_on && s.channel_.isSome then (s, some .dcheck_not_channel)
  else
    match host with
    | none => if env.dcheck_on then (s, some .dcheck_host) else (s, some .null_host)
    | some host => OnChannelEstablished_leaving env fuel (AddFilter s host)

/-- The answer of a call, from the host it leaves and the fault that stopped it. -/
def answer_of (r : OzoneDisplayChannelHost × Option Fault) :
    Except Fault OzoneDisplayChannelHost :=
  match r.2 with
  | none => .ok r.1
  | some fault => .error fault

/-! ## Concrete surroundings and messages used in the examples -/

/-- A build with `DCHECK` on and a channel that accepts every message. -/
def env_debug : Env :=
  { dcheck_on := true, channel_send := fun _ _ _ => true, PROCESS_TYPE_GPU := 9 }

/-- A build with `DCHECK` off and a channel that accepts every message. -/
def env_release : Env :=
  { dcheck_on := false, channel_send := fun _ _ _ => true, PROCESS_TYPE_GPU := 9 }

/-- A build with `DCHECK` on and a channel whose `Send` fails on every message. -/
def env_failing : Env :=
  { dcheck_on := true, channel_send := fun _ _ _ => false, PROCESS_TYPE_GPU := 9 }

/-- The command `SetTitle` for widget 1 with the one-letter title X. -/
def title_X : Message :=
  new_WaylandWindow_Title CHANNEL_ROUTE_ID 1 [0x58]

/-- The command `SetState` for widget 2. -/
def state_2 : Message :=
  new_WaylandWindow_State CHANNEL_ROUTE_ID 2 1 640 480

/-- The command `SetAttributes` for widget 3. -/
def attributes_3 : Message :=
  new_WaylandWindow_Attributes CHANNEL_ROUTE_ID 3 0 10 20 1

/-! ## Lemmas on `Send` and the flush loop -/

theorem Send_absent (env : Env) (s : OzoneDisplayChannelHost) (m : Message)
    (h : s.channel_ = none) :
    Send env s m = (true, { s with deferred_messages_ := s.deferred_messages_ ++ [m] }) := by
  simp [Send, h]

theorem Send_present (env : Env) (s : OzoneDisplayChannelHost) (m : Message) (channel : Nat)
    (h : s.channel_ = some channel) :
    Send env s m = (env.channel_send channel s.channel_log (m.set_unblock true),
      { s with channel_log := s.channel_log ++ [on_wire channel m] }) := by
  simp [Send, h, on_wire]

theorem send_all_absent (env : Env) (msgs : List Message) :
    ∀ s : OzoneDisplayChannelHost, s.channel_ = none →
      send_all env s msgs = { s with deferred_messages_ := s.deferred_messages_ ++ msgs } := by
  induction msgs with
  | nil => intro s _; simp [send_all]
  | cons m rest ih =>
    intro s h
    have h1 := ih (Send env s m).2 (by rw [Send_absent env s m h]; exact h)
    simp only [send_all, List.foldl_cons] at h1 ⊢
    rw [h1, Send_absent env s m h]
    simp

theorem flush_loop_present (env : Env) (channel : Nat) (q : List Message) :
    ∀ (fuel : Nat) (s : OzoneDisplayChannelHost), s.channel_ = some channel →
      s.deferred_messages_ = q → q.length ≤ fuel →
      flush_loop env fuel s = some
        { s with
          deferred_messages_ := []
          channel_log := s.channel_log ++ q.map (on_wire channel) } := by
  induction q with
  | nil =>
    intro fuel s _ hq _
    obtain ⟨c, q0, l, t, d⟩ := s
    simp only at hq
    subst hq
    cases fuel <;> simp [flush_loop]
  | cons m rest ih =>
    intro fuel s hc hq hlen
    cases fuel with
    | zero => simp at hlen
    | succ fuel =>
      have hlen1 : rest.length ≤ fuel := by simpa using hlen
      have h1 := ih fuel (flush_body env s m)
        (by simp [flush_body, Send_present env s m channel hc, hc])
        (by simp [flush_body, Send_present env s m channel hc, hq]) hlen1
      simp only [flush_loop, hq]
      rw [h1]
      simp [flush_body, Send_present env s m channel hc]

theorem OnChannelEstablished_present (env : Env) (fuel channel : Nat)
    (s : OzoneDisplayChannelHost) (hc : s.channel_ = some channel)
    (hfuel : s.deferred_messages_.length ≤ fuel) :
    OnChannelEstablished env fuel s = .ok
      { s with
        deferred_messages_ := []
        channel_log := s.channel_log ++ s.deferred_messages_.map (on_wire channel) } := by
  simp [OnChannelEstablished, hc, flush_loop_present env channel _ fuel s hc rfl hfuel]

theorem content_on_wire (channel : Nat) (msgs : List Message) :
    (msgs.map (on_wire channel)).map (fun call => call.2.content) = msgs.map Message.content := by
  simp [on_wire, Message.content, Message.set_unblock, Function.comp_def]

/-! ## C1 – C3: buffering and sending -/

/-- C1: messages passed to `Send` while `channel_` is null, starting from an empty
`deferred_messages_`, are all handed to the channel by the next `UpdateConnection` that
finds a process host whose `AddFilter` attaches a channel: the calls the channel sees
are exactly those messages, each once, in the order issued (with the unblock bit set
by `Send`, the routing id and content untouched), and the queue is empty afterwards.
The loop needs no more passes than there are messages. -/
theorem UpdateConnection_delivers_buffered_in_order (env : Env) (s : OzoneDisplayChannelHost)
    (msgs : List Message) (channel fuel : Nat)
    (habsent : s.channel_ = none) (hempty : s.deferred_messages_ = [])
    (hfuel : msgs.length ≤ fuel) :
    UpdateConnection env fuel (send_all env s msgs) (some { channel := some channel }) = .ok
      { s with
        channel_ := some channel
        deferred_messages_ := []
        channel_log := s.channel_log ++ msgs.map (on_wire channel) } ∧
    (msgs.map (on_wire channel)).map (fun call => call.2.content) =
      msgs.map Message.content := by
  refine ⟨?_, content_on_wire channel msgs⟩
  rw [send_all_absent env msgs s habsent]
  have h := OnChannelEstablished_present env fuel channel
    (OnFilterAdded { s with deferred_messages_ := s.deferred_messages_ ++ msgs } channel)
    rfl (by simpa [OnFilterAdded, hempty] using hfuel)
  simp only [UpdateConnection, AddFilter, habsent, Option.isSome_none, Bool.and_false]
  simpa [OnFilterAdded, hempty] using h

/-- Scenario A for C1: one `SetTitle` for widget 1 with title X is buffered, then the
connection is made on channel 7; the channel sees that one message and the queue is
empty. -/
theorem UpdateConnection_delivers_buffered_in_order_witness :
    UpdateConnection env_debug 1 (send_all env_debug construct [title_X])
        (some { channel := some 7 }) = .ok
      { channel_ := some 7, deferred_messages_ := [],
        channel_log := [(7, { routing_id := -1, body := .WaylandWindow_Title 1 [0x58],
                              unblock := true })],
        io_tasks := [.UpdateConnection], dispatcher_log := [] } ∧
    ([title_X].map (on_wire 7)).map (fun call => call.2.content) =
      [title_X].map Message.content :=
  UpdateConnection_delivers_buffered_in_order env_debug construct [title_X] 7 1 rfl rfl
    (by decide)

/-- C2: with `channel_` null, `Send` answers `true` and its only effect is to append the
message at the tail of `deferred_messages_`: no call is made on any channel and
`channel_` stays null. -/
theorem Send_buffers_when_channel_absent (env : Env) (s : OzoneDisplayChannelHost)
    (m : Message) (habsent : s.channel_ = none) :
    (Send env s m).1 = true ∧
    (Send env s m).2 = { s with deferred_messages_ := s.deferred_messages_ ++ [m] } ∧
    (Send env s m).2.channel_log = s.channel_log ∧
    (Send env s m).2.channel_ = none := by
  simp [Send_absent env s m habsent, habsent]

/-- An instance of C2: a second message arrives while one is already queued. -/
theorem Send_buffers_when_channel_absent_witness :
    (Send env_failing (send_all env_failing construct [title_X]) state_2).1 = true ∧
    (Send env_failing (send_all env_failing construct [title_X]) state_2).2 =
      { send_all env_failing construct [title_X] with
        deferred_messages_ :=
          (send_all env_failing construct [title_X]).deferred_messages_ ++ [state_2] } ∧
    (Send env_failing (send_all env_failing construct [title_X]) state_2).2.channel_log =
      (send_all env_failing construct [title_X]).channel_log ∧
    (Send env_failing (send_all env_failing construct [title_X]) state_2).2.channel_ = none :=
  Send_buffers_when_channel_absent env_failing (send_all env_failing construct [title_X])
    state_2 rfl

/-- C3: with `channel_` set, `Send` sets the unblock bit of the message, makes exactly
one call on `channel_->Send` with that message, answers whatever boolean the channel
answered, and changes neither `deferred_messages_` nor `channel_`. -/
theorem Send_forwards_when_channel_present (env : Env) (s : OzoneDisplayChannelHost)
    (m : Message) (channel : Nat) (hpresent : s.channel_ = some channel) :
    (Send env s m).1 = env.channel_send channel s.channel_log (m.set_unblock true) ∧
    (Send env s m).2 =
      { s with channel_log := s.channel_log ++ [(channel, m.set_unblock true)] } ∧
    (m.set_unblock true).unblock = true ∧
    (m.set_unblock true).content = m.content ∧
    (Send env s m).2.deferred_messages_ = s.deferred_messages_ ∧
    (Send env s m).2.channel_ = s.channel_ := by
  simp [Send_present env s m channel hpresent, on_wire, Message.set_unblock, Message.content]

/-- An instance of C3 on a channel whose `Send` fails: the failure is what the caller
gets back. -/
theorem Send_forwards_when_channel_present_witness :
    (Send env_failing (OnFilterAdded construct 7) title_X).1 =
      env_failing.channel_send 7 (OnFilterAdded construct 7).channel_log
        (title_X.set_unblock true) ∧
    (Send env_failing (OnFilterAdded construct 7) title_X).2 =
      { OnFilterAdded construct 7 with
        channel_log :=
          (OnFilterAdded construct 7).channel_log ++ [(7, title_X.set_unblock true)] } ∧
    (title_X.set_unblock true).unblock = true ∧
    (title_X.set_unblock true).content = title_X.content ∧
    (Send env_failing (OnFilterAdded construct 7) title_X).2.deferred_messages_ =
      (OnFilterAdded construct 7).deferred_messages_ ∧
    (Send env_failing (OnFilterAdded construct 7) title_X).2.channel_ =
      (OnFilterAdded construct 7).channel_ :=
  Send_forwards_when_channel_present env_failing (OnFilterAdded construct 7) title_X 7 rfl

/-! ## The flush loop in general, and the bookkeeping invariant -/

theorem flush_loop_absent (env : Env) :
    ∀ (fuel : Nat) (s : OzoneDisplayChannelHost), s.channel_ = none →
      flush_loop env fuel s = if s.deferred_messages_ = [] then some s else none := by
  intro fuel
  induction fuel with
  | zero =>
    intro s _
    cases hq : s.deferred_messages_ <;> simp [flush_loop, hq]
  | succ fuel ih =>
    intro s hc
    cases hq : s.deferred_messages_ with
    | nil => simp [flush_loop, hq]
    | cons m rest =>
      have h1 := ih (flush_body env s m) (by simp [flush_body, Send_absent env s m hc, hc])
      simp only [flush_loop, hq]
      rw [h1]
      simp [flush_body, Send_absent env s m hc, hq]

theorem flush_loop_short (env : Env) (channel : Nat) (q : List Message) :
    ∀ (fuel : Nat) (s : OzoneDisplayChannelHost), s.channel_ = some channel →
      s.deferred_messages_ = q → fuel < q.length → flush_loop env fuel s = none := by
  induction q with
  | nil => intro fuel s _ _ h; simp at h
  | cons m rest ih =>
    intro fuel s hc hq hlen
    cases fuel with
    | zero => simp [flush_loop, hq]
    | succ fuel =>
      have hlen1 : fuel < rest.length := by simpa using hlen
      have h1 := ih fuel (flush_body env s m)
        (by simp [flush_body, Send_present env s m channel hc, hc])
        (by simp [flush_body, Send_present env s m channel hc, hq]) hlen1
      simp only [flush_loop, hq]
      exact h1

theorem OnChannelEstablished_ok (env : Env) (fuel : Nat) (s s' : OzoneDisplayChannelHost)
    (h : OnChannelEstablished env fuel s = .ok s') :
    s' = { s with
           deferred_messages_ := []
           channel_log := s.channel_log ++
             s.deferred_messages_.map (fun m => (s.channel_.getD 0, m.set_unblock true)) } := by
  cases hc : s.channel_ with
  | none =>
    have hl := flush_loop_absent env fuel s hc
    by_cases hq : s.deferred_messages_ = []
    · simp [OnChannelEstablished, hl, hq] at h
      split at h
      · cases h
      · cases h; obtain ⟨c, q0, l, t, d⟩ := s; simp_all
    · simp [OnChannelEstablished, hl, hq] at h
      split at h <;> cases h
  | some channel =>
    by_cases hlen : s.deferred_messages_.length ≤ fuel
    · have hl := OnChannelEstablished_present env fuel channel s hc hlen
      rw [hl] at h
      cases h
      simp [hc, on_wire]
    · have hl := flush_loop_short env channel _ fuel s hc rfl (by omega)
      simp [OnChannelEstablished, hl, hc] at h

theorem EstablishChannel_members (s : OzoneDisplayChannelHost) :
    (EstablishChannel s).channel_ = s.channel_ ∧
    (EstablishChannel s).deferred_messages_ = s.deferred_messages_ ∧
    (EstablishChannel s).channel_log = s.channel_log := by
  cases hc : s.channel_ <;> simp [EstablishChannel, PostTask, hc]

theorem Accounted_of_members (s s' : OzoneDisplayChannelHost) (hist : List Message)
    (h : Accounted s hist) (hc : s'.channel_.isSome = true → s.channel_.isSome = true)
    (hq : s'.deferred_messages_ = s.deferred_messages_) (hl : s'.channel_log = s.channel_log) :
    Accounted s' hist := by
  obtain ⟨h1, handed, h2, h3⟩ := h
  exact ⟨fun hs => by rw [hq]; exact h1 (hc hs), handed, by rw [hq]; exact h2, by rw [hl]; exact h3⟩

theorem Accounted_Send (env : Env) (s : OzoneDisplayChannelHost) (hist : List Message)
    (m : Message) (h : Accounted s hist) : Accounted (Send env s m).2 (hist ++ [m]) := by
  obtain ⟨h1, handed, h2, h3⟩ := h
  cases hc : s.channel_ with
  | none =>
    rw [Send_absent env s m hc]
    exact ⟨by simp [hc], handed, by simp [h2], h3⟩
  | some channel =>
    have hq : s.deferred_messages_ = [] := h1 (by simp [hc])
    rw [Send_present env s m channel hc]
    refine ⟨fun _ => hq, handed ++ [m], by simp [h2, hq], ?_⟩
    simp [h3, on_wire]

theorem Accounted_UpdateConnection (env : Env) (fuel : Nat) (s s' : OzoneDisplayChannelHost)
    (hist : List Message) (host : Option GpuProcessHost) (h : Accounted s hist)
    (hok : UpdateConnection env fuel s host = .ok s') : Accounted s' hist := by
  obtain ⟨_, handed, h2, h3⟩ := h
  cases host with
  | none =>
    simp only [UpdateConnection] at hok
    split at hok
    · cases hok
    · split at hok <;> cases hok
  | some host =>
    simp only [UpdateConnection] at hok
    split at hok
    · cases hok
    · have hs := OnChannelEstablished_ok env fuel (AddFilter s host) s' hok
      have hq : (AddFilter s host).deferred_messages_ = s.deferred_messages_ := by
        cases hh : host.channel <;> simp [AddFilter, OnFilterAdded, hh]
      have hl : (AddFilter s host).channel_log = s.channel_log := by
        cases hh : host.channel <;> simp [AddFilter, OnFilterAdded, hh]
      rw [hq, hl] at hs
      subst hs
      refine ⟨fun _ => rfl, handed ++ s.deferred_messages_, by simp [h2], ?_⟩
      simp [h3, Function.comp_def]

theorem Accounted_step (env : Env) (fuel : Nat) (s s' : OzoneDisplayChannelHost)
    (hist : List Message) (op : Op) (hop : op.is_attach = false) (h : Accounted s hist)
    (hok : step env fuel s op = .ok s') : Accounted s' (hist ++ sent_messages [op]) := by
  cases op with
  | Send m =>
    simp only [step, Except.ok.injEq] at hok
    subst hok
    simpa [sent_messages] using Accounted_Send env s hist m h
  | EstablishChannel =>
    simp only [step, Except.ok.injEq] at hok
    subst hok
    have hm := EstablishChannel_members s
    simpa [sent_messages] using
      Accounted_of_members s _ hist h (by rw [hm.1]; exact id) hm.2.1 hm.2.2
  | UpdateConnection host =>
    simpa [sent_messages] using Accounted_UpdateConnection env fuel s s' hist host h hok
  | OnFilterAdded channel => simp [Op.is_attach] at hop
  | OnChannelClosing =>
    simp only [step, Except.ok.injEq] at hok
    subst hok
    simpa [sent_messages] using
      Accounted_of_members s (OnChannelClosing s) hist h (by simp [OnChannelClosing]) rfl rfl
  | BrowserChildProcessHostConnected data =>
    simp only [step, Except.ok.injEq] at hok
    subst hok
    have hm := EstablishChannel_members s
    by_cases hg : data.process_type = env.PROCESS_TYPE_GPU
    · simpa [sent_messages, BrowserChildProcessHostConnected, hg] using
        Accounted_of_members s _ hist h (by rw [hm.1]; exact id) hm.2.1 hm.2.2
    · simpa [sent_messages, BrowserChildProcessHostConnected, hg] using h

theorem sent_messages_cons (op : Op) (ops : List Op) :
    sent_messages (op :: ops) = sent_messages [op] ++ sent_messages ops := by
  cases op <;> simp [sent_messages]

theorem Accounted_run (env : Env) (fuel : Nat) (ops : List Op) :
    ∀ (s s' : OzoneDisplayChannelHost) (hist : List Message),
      (∀ op ∈ ops, op.is_attach = false) → Accounted s hist →
      run env fuel s ops = .ok s' → Accounted s' (hist ++ sent_messages ops) := by
  induction ops with
  | nil =>
    intro s s' hist _ h hok
    simp only [run, Except.ok.injEq] at hok
    subst hok
    simpa [sent_messages] using h
  | cons op ops ih =>
    intro s s' hist hops h hok
    simp only [run] at hok
    cases hstep : step env fuel s op with
    | error fault => simp [hstep] at hok
    | ok s1 =>
      simp only [hstep] at hok
      have h1 := Accounted_step env fuel s s1 hist op (hops op (by simp)) h hstep
      have h2 := ih s1 s' _ (fun o ho => hops o (by simp [ho])) h1 hok
      rw [sent_messages_cons, ← List.append_assoc]
      exact h2

theorem Accounted_construct : Accounted construct [] :=
  ⟨fun _ => rfl, [], rfl, rfl⟩

/-! ## C4: a set channel and the queue -/

/-- C4 as stated fails: `Send` of a message on the fresh host queues it, and
`OnFilterAdded` called next on its own sets `channel_` without flushing, so the host is
left with `channel_` set and a non-empty `deferred_messages_`. -/
theorem OnFilterAdded_alone_keeps_queue :
    run env_debug 0 construct [.Send title_X, .OnFilterAdded 7] = .ok
      { channel_ := some 7, deferred_messages_ := [title_X], channel_log := [],
        io_tasks := [.UpdateConnection], dispatcher_log := [] } :=
  rfl

/-- C4, amended: in every state the host reaches from its constructed state by calls of
`Send`, `EstablishChannel`, `UpdateConnection`, `OnChannelClosing` and
`BrowserChildProcessHostConnected` that have returned (so that `OnFilterAdded` runs
only inside `UpdateConnection`, from `AddFilter`), a set `channel_` comes with an empty
`deferred_messages_`. -/
theorem channel_set_implies_queue_empty (env : Env) (fuel : Nat) (ops : List Op)
    (s : OzoneDisplayChannelHost) (hops : ∀ op ∈ ops, op.is_attach = false)
    (hrun : run env fuel construct ops = .ok s) (hset : s.channel_.isSome = true) :
    s.deferred_messages_ = [] :=
  (Accounted_run env fuel ops construct s [] hops Accounted_construct hrun).1 hset

/-- An instance of amended C4: two messages are queued, the process is announced, the
connection is made, and one more message is sent. -/
theorem channel_set_implies_queue_empty_witness :
    (run env_debug 2 construct
        [.Send title_X, .Send state_2, .BrowserChildProcessHostConnected { process_type := 9 },
         .UpdateConnection (some { channel := some 7 }), .Send attributes_3]).toOption.map
      (fun s => s.deferred_messages_) = some [] :=
  congrArg some (channel_set_implies_queue_empty env_debug 2
    [.Send title_X, .Send state_2, .BrowserChildProcessHostConnected { process_type := 9 },
     .UpdateConnection (some { channel := some 7 }), .Send attributes_3]
    { channel_ := some 7, deferred_messages_ := [],
      channel_log := [on_wire 7 title_X, on_wire 7 state_2, on_wire 7 attributes_3],
      io_tasks := [.UpdateConnection, .UpdateConnection], dispatcher_log := [] }
    (by decide) rfl rfl)

/-! ## C5: the flush and failing sends -/

/-- C5 as stated fails: with two messages queued and a channel whose `Send` answers
`false` on every call, the flush does not stop after the first message; the channel
is called with both. -/
theorem flush_goes_on_after_failed_send :
    env_failing.channel_send 7 [] (title_X.set_unblock true) = false ∧
    UpdateConnection env_failing 2 (send_all env_failing construct [title_X, state_2])
        (some { channel := some 7 }) = .ok
      { channel_ := some 7, deferred_messages_ := [],
        channel_log := [on_wire 7 title_X, on_wire 7 state_2],
        io_tasks := [.UpdateConnection], dispatcher_log := [] } :=
  ⟨rfl, rfl⟩

/-- C5, amended: the flush of `OnChannelEstablished` hands the queued messages to the
channel one at a time in FIFO order and does not look at what `channel_->Send`
answers: whatever the channel answers, with `channel_` set and a queue `m1..mn` the
channel is called with exactly `m1..mn`, and the queue is empty afterwards. -/
theorem OnChannelEstablished_sends_whole_queue (env : Env) (fuel channel : Nat)
    (s : OzoneDisplayChannelHost) (hpresent : s.channel_ = some channel)
    (hfuel : s.deferred_messages_.length ≤ fuel) :
    OnChannelEstablished env fuel s = .ok
      { s with
        deferred_messages_ := []
        channel_log := s.channel_log ++ s.deferred_messages_.map (on_wire channel) } :=
  OnChannelEstablished_present env fuel channel s hpresent hfuel

/-- An instance of amended C5 on a channel whose `Send` always fails, three messages
queued. -/
theorem OnChannelEstablished_sends_whole_queue_witness :
    OnChannelEstablished env_failing 3
        (OnFilterAdded (send_all env_failing construct [title_X, state_2, attributes_3]) 7) =
      .ok
      { OnFilterAdded (send_all env_failing construct [title_X, state_2, attributes_3]) 7 with
        deferred_messages_ := []
        channel_log :=
          (OnFilterAdded (send_all env_failing construct
            [title_X, state_2, attributes_3]) 7).channel_log ++
          (OnFilterAdded (send_all env_failing construct
            [title_X, state_2, attributes_3]) 7).deferred_messages_.map (on_wire 7) } :=
  OnChannelEstablished_sends_whole_queue env_failing 3 7
    (OnFilterAdded (send_all env_failing construct [title_X, state_2, attributes_3]) 7)
    rfl (by decide)

/-! ## C6: `EstablishChannel` -/

/-- C6: the code misses the pending case.  Two calls of `EstablishChannel` in a row on
the host with `channel_` null, no posted task having run in between, post two
`UpdateConnection` tasks where the claim has one.  When the IO thread runs them with a
process host that attaches channel 7, the first returns with `channel_` set, and the
second then enters `UpdateConnection` with `channel_` set and stops at the function's
own `DCHECK(!channel_)`. -/
theorem EstablishChannel_twice_second_task_trips_dcheck :
    establish_times 2 members_init =
      { members_init with io_tasks := [.UpdateConnection, .UpdateConnection] } ∧
    run_task env_debug 0 (some { channel := some 7 }) (establish_times 2 members_init)
        .UpdateConnection = .ok
      { channel_ := some 7, deferred_messages_ := [], channel_log := [],
        io_tasks := [.UpdateConnection, .UpdateConnection], dispatcher_log := [] } ∧
    run_task env_debug 0 (some { channel := some 7 })
        { channel_ := some 7, deferred_messages_ := [], channel_log := [],
          io_tasks := [.UpdateConnection, .UpdateConnection], dispatcher_log := [] }
        .UpdateConnection = .error .dcheck_not_channel :=
  ⟨rfl, rfl, rfl⟩

/-- Two calls of `EstablishChannel` in a row on the host with `channel_` null, no posted
task having run in between, post two `UpdateConnection` tasks. -/
theorem EstablishChannel_twice_posts_twice :
    establish_times 2 members_init =
      { members_init with io_tasks := [.UpdateConnection, .UpdateConnection] } :=
  rfl

/-- What `EstablishChannel` does, in general: nothing when `channel_` is set; when
`channel_` is null every call posts one `UpdateConnection` task, since the guard looks at
`channel_` alone and not at a task already pending. -/
theorem EstablishChannel_posts_unless_connected (n : Nat) (s : OzoneDisplayChannelHost) :
    (s.channel_.isSome = true → establish_times n s = s) ∧
    (s.channel_ = none → establish_times n s =
      { s with io_tasks := s.io_tasks ++ List.replicate n .UpdateConnection }) := by
  induction n generalizing s with
  | zero => simp [establish_times]
  | succ n ih =>
    constructor
    · intro hs
      cases hc : s.channel_ with
      | none => simp [hc] at hs
      | some channel =>
        have he : EstablishChannel s = s := by simp [EstablishChannel, hc]
        simp only [establish_times, he]
        exact (ih s).1 hs
    · intro hc
      have he : EstablishChannel s = { s with io_tasks := s.io_tasks ++ [.UpdateConnection] } := by
        simp [EstablishChannel, PostTask, hc]
      simp only [establish_times, he]
      have h2 := (ih { s with io_tasks := s.io_tasks ++ [.UpdateConnection] }).2 hc
      rw [h2]
      simp [List.replicate_succ]

/-- Three calls on the connected host change nothing, three calls on the host with
`channel_` null post three tasks. -/
theorem EstablishChannel_posts_unless_connected_witness :
    establish_times 3 (OnFilterAdded construct 7) = OnFilterAdded construct 7 ∧
    establish_times 3 members_init =
      { members_init with
        io_tasks := members_init.io_tasks ++ List.replicate 3 .UpdateConnection } :=
  ⟨(EstablishChannel_posts_unless_connected 3 (OnFilterAdded construct 7)).1 rfl,
   (EstablishChannel_posts_unless_connected 3 members_init).2 rfl⟩

/-! ## C7: `UpdateConnection` without a process host -/

/-- C7 as stated fails: with `DCHECK` compiled in and no process host, `UpdateConnection`
on the constructed host does not return silently; `DCHECK(host)` fires. -/
theorem UpdateConnection_without_host_asserts :
    UpdateConnection env_debug 0 construct none = .error .dcheck_host :=
  rfl

theorem flush_loop_eq_passes (env : Env) :
    ∀ (fuel : Nat) (s : OzoneDisplayChannelHost),
      flush_loop env fuel s =
        if (flush_passes env fuel s).deferred_messages_.isEmpty
        then some (flush_passes env fuel s) else none := by
  intro fuel
  induction fuel with
  | zero => intro s; simp [flush_loop, flush_passes]
  | succ fuel ih =>
    intro s
    cases hq : s.deferred_messages_ with
    | nil => simp [flush_loop, flush_passes, hq]
    | cons m rest => simp only [flush_loop, flush_passes, hq, ih]

theorem OnChannelEstablished_eq_leaving (env : Env) (fuel : Nat)
    (s : OzoneDisplayChannelHost) :
    OnChannelEstablished env fuel s = answer_of (OnChannelEstablished_leaving env fuel s) := by
  simp only [OnChannelEstablished, OnChannelEstablished_leaving, flush_loop_eq_passes]
  split
  · rfl
  · cases he : (flush_passes env fuel s).deferred_messages_.isEmpty <;> simp [he, answer_of]

theorem UpdateConnection_eq_leaving (env : Env) (fuel : Nat) (s : OzoneDisplayChannelHost)
    (host : Option GpuProcessHost) :
    UpdateConnection env fuel s host = answer_of (UpdateConnection_leaving env fuel s host) := by
  simp only [UpdateConnection, UpdateConnection_leaving]
  split
  · rfl
  · cases host with
    | none => cases hd : env.dcheck_on <;> simp [answer_of]
    | some host => exact OnChannelEstablished_eq_leaving env fuel (AddFilter s host)

/-- C7, amended: with `DCHECK` compiled in, `UpdateConnection` run with `channel_` null
and no process host does not fail silently: it stops at `DCHECK(host)` and does not
return.  Where it stops the host is exactly as it was on entry: `channel_` is still
null, the queue is unchanged, and no call has been made on a channel. -/
theorem UpdateConnection_no_host_fires_dcheck (env : Env) (fuel : Nat)
    (s : OzoneDisplayChannelHost) (hd : env.dcheck_on = true) (habsent : s.channel_ = none) :
    UpdateConnection env fuel s none = .error .dcheck_host ∧
    UpdateConnection_leaving env fuel s none = (s, some .dcheck_host) ∧
    (UpdateConnection_leaving env fuel s none).1.channel_ = none ∧
    (UpdateConnection_leaving env fuel s none).1.deferred_messages_ = s.deferred_messages_ ∧
    (UpdateConnection_leaving env fuel s none).1.channel_log = s.channel_log := by
  simp [UpdateConnection, UpdateConnection_leaving, hd, habsent]

/-- An instance of amended C7 with a message waiting in the queue: the assertion fires
and the message is still queued, unsent. -/
theorem UpdateConnection_no_host_fires_dcheck_witness :
    UpdateConnection env_debug 1 (send_all env_debug construct [title_X]) none =
      .error .dcheck_host ∧
    UpdateConnection_leaving env_debug 1 (send_all env_debug construct [title_X]) none =
      ({ channel_ := none, deferred_messages_ := [title_X], channel_log := [],
         io_tasks := [.UpdateConnection], dispatcher_log := [] }, some .dcheck_host) :=
  ⟨(UpdateConnection_no_host_fires_dcheck env_debug 1
      (send_all env_debug construct [title_X]) rfl rfl).1,
   (UpdateConnection_no_host_fires_dcheck env_debug 1
      (send_all env_debug construct [title_X]) rfl rfl).2.1⟩

theorem UpdateConnection_no_host_never_returns (env : Env) (fuel : Nat)
    (s s' : OzoneDisplayChannelHost) : UpdateConnection env fuel s none ≠ .ok s' := by
  intro h
  simp only [UpdateConnection] at h
  split at h
  · cases h
  · split at h <;> cases h

/-! ## C8 – C9: the receive path -/

/-- C8: on the IO thread, a message of each of the eight handled types makes
`OnMessageReceived` call exactly one method of `dispatcher_`, the one of that type,
with the payload values as they came and in the same order, and answer `true`;
nothing else about the host changes. -/
theorem OnMessageReceived_dispatches_matching_handler (env : Env)
    (s : OzoneDisplayChannelHost) (routing_id : Int) (unblock : Bool) :
    (∀ x y, OnMessageReceived env true s
        { routing_id := routing_id, body := .WaylandInput_MotionNotify x y,
          unblock := unblock } =
      .ok (true, { s with dispatcher_log := s.dispatcher_log ++ [.MotionNotify x y] })) ∧
    (∀ handle type flags x y, OnMessageReceived env true s
        { routing_id := routing_id, body := .WaylandInput_ButtonNotify handle type flags x y,
          unblock := unblock } =
      .ok (true, { s with dispatcher_log :=
        s.dispatcher_log ++ [.ButtonNotify handle type flags x y] })) ∧
    (∀ x y xoffset yoffset, OnMessageReceived env true s
        { routing_id := routing_id, body := .WaylandInput_AxisNotify x y xoffset yoffset,
          unblock := unblock } =
      .ok (true, { s with dispatcher_log :=
        s.dispatcher_log ++ [.AxisNotify x y xoffset yoffset] })) ∧
    (∀ handle x y, OnMessageReceived env true s
        { routing_id := routing_id, body := .WaylandInput_PointerEnter handle x y,
          unblock := unblock } =
      .ok (true, { s with dispatcher_log := s.dispatcher_log ++ [.PointerEnter handle x y] })) ∧
    (∀ handle x y, OnMessageReceived env true s
        { routing_id := routing_id, body := .WaylandInput_PointerLeave handle x y,
          unblock := unblock } =
      .ok (true, { s with dispatcher_log := s.dispatcher_log ++ [.PointerLeave handle x y] })) ∧
    (∀ type code modifiers, OnMessageReceived env true s
        { routing_id := routing_id, body := .WaylandInput_KeyNotify type code modifiers,
          unblock := unblock } =
      .ok (true, { s with dispatcher_log :=
        s.dispatcher_log ++ [.KeyNotify type code modifiers] })) ∧
    (∀ width height, OnMessageReceived env true s
        { routing_id := routing_id, body := .WaylandInput_OutputSize width height,
          unblock := unblock } =
      .ok (true, { s with dispatcher_log :=
        s.dispatcher_log ++ [.OutputSizeChanged width height] })) ∧
    (∀ handle, OnMessageReceived env true s
        { routing_id := routing_id, body := .WaylandInput_CloseWidget handle,
          unblock := unblock } =
      .ok (true, { s with dispatcher_log := s.dispatcher_log ++ [.CloseWidget handle] })) := by
  refine ⟨?_, ?_, ?_, ?_, ?_, ?_, ?_, ?_⟩ <;> intros <;>
    simp [OnMessageReceived, OnMotionNotify, OnButtonNotify, OnAxisNotify, OnPointerEnter,
      OnPointerLeave, OnKeyNotify, OnOutputSizeChanged, OnCloseWidget, dispatch]

/-- C9: on the IO thread, a message whose type is none of the eight handled ones makes
`OnMessageReceived` answer `false` and return with the host exactly as it was (no
call on `dispatcher_`, `channel_` and the queue untouched, no fault); and for any
message the answer is `true` exactly when the type is one of the eight. -/
theorem OnMessageReceived_unhandled_iff_unrecognized (env : Env)
    (s : OzoneDisplayChannelHost) (message : Message)
    (hunknown : message.body.recognized = false) :
    OnMessageReceived env true s message = .ok (false, s) ∧
    ∀ other : Message,
      (∃ s', OnMessageReceived env true s other = .ok (true, s')) ↔
        other.body.recognized = true := by
  constructor
  · obtain ⟨r, body, u⟩ := message
    cases body <;> simp_all [OnMessageReceived, Body.recognized]
  · intro other
    obtain ⟨r, body, u⟩ := other
    cases body <;> simp [OnMessageReceived, Body.recognized]

/-- An instance of C9: a message of an unknown type 42 arrives on the connected host. -/
theorem OnMessageReceived_unhandled_iff_unrecognized_witness :
    OnMessageReceived env_debug true (OnFilterAdded construct 7)
        { routing_id := -1, body := .Unknown 42, unblock := false } =
      .ok (false, OnFilterAdded construct 7) ∧
    ∀ other : Message,
      (∃ s', OnMessageReceived env_debug true (OnFilterAdded construct 7) other =
        .ok (true, s')) ↔ other.body.recognized = true :=
  OnMessageReceived_unhandled_iff_unrecognized env_debug (OnFilterAdded construct 7)
    { routing_id := -1, body := .Unknown 42, unblock := false } rfl

/-! ## C10: nothing lost, duplicated or reordered -/

/-- C10: after any sequence of `Send`, `UpdateConnection` that finds a process host
attaching a channel, and `OnChannelClosing`, each call having returned, the messages
passed to `Send` so far are, in order, the messages the channels have been called
with followed by the messages now in `deferred_messages_`.  The queue holds the last
messages as they were passed; the channels have seen the ones before, with the
unblock bit set by `Send` and routing id and content untouched. -/
theorem sent_is_channel_log_then_queue (env : Env) (fuel : Nat) (ops : List Op)
    (s : OzoneDisplayChannelHost) (hops : ∀ op ∈ ops, op.is_send_connect_close = true)
    (hrun : run env fuel construct ops = .ok s) :
    (s.channel_log.map Prod.snd ++ s.deferred_messages_).map Message.content =
      (sent_messages ops).map Message.content ∧
    s.channel_log.map Prod.snd =
      ((sent_messages ops).take s.channel_log.length).map (fun m => m.set_unblock true) ∧
    s.deferred_messages_ = (sent_messages ops).drop s.channel_log.length := by
  have hattach : ∀ op ∈ ops, op.is_attach = false := by
    intro op hop
    have h := hops op hop
    cases op <;> simp_all [Op.is_attach, Op.is_send_connect_close]
  obtain ⟨_, handed, h2, h3⟩ :=
    Accounted_run env fuel ops construct s [] hattach Accounted_construct hrun
  have hlen : s.channel_log.length = handed.length := by
    have := congrArg List.length h3
    simpa using this
  simp only [List.nil_append] at h2
  refine ⟨?_, ?_, ?_⟩
  · rw [h2, h3]
    simp [Message.content, Message.set_unblock, Function.comp_def]
  · rw [h2, h3, hlen]
    simp
  · rw [h2, hlen]
    simp

/-- An instance of C10: a message is queued, the connection is made on channel 7, a
second message goes straight to the channel, the channel closes, a third message is
queued. -/
theorem sent_is_channel_log_then_queue_witness :
    run env_debug 1 construct
        [.Send title_X, .UpdateConnection (some { channel := some 7 }), .Send state_2,
         .OnChannelClosing, .Send attributes_3] = .ok
      { channel_ := none, deferred_messages_ := [attributes_3],
        channel_log := [on_wire 7 title_X, on_wire 7 state_2],
        io_tasks := [.UpdateConnection], dispatcher_log := [] } ∧
    ([on_wire 7 title_X, on_wire 7 state_2].map Prod.snd ++ [attributes_3]).map
        Message.content =
      [title_X, state_2, attributes_3].map Message.content :=
  ⟨rfl, (sent_is_channel_log_then_queue env_debug 1
    [.Send title_X, .UpdateConnection (some { channel := some 7 }), .Send state_2,
     .OnChannelClosing, .Send attributes_3]
    { channel_ := none, deferred_messages_ := [attributes_3],
      channel_log := [on_wire 7 title_X, on_wire 7 state_2],
      io_tasks := [.UpdateConnection], dispatcher_log := [] }
    (by decide) rfl).1⟩

/-! ## C11: closing and the sends that follow -/

theorem step_without_connect (env : Env) (fuel : Nat) (s s' : OzoneDisplayChannelHost)
    (op : Op) (hc : s.channel_ = none) (hattach : op.is_attach = false)
    (hconnect : op.is_connect = false) (hok : step env fuel s op = .ok s') :
    s'.channel_ = none ∧ s'.channel_log = s.channel_log ∧
    s'.deferred_messages_ = s.deferred_messages_ ++ sent_messages [op] := by
  cases op with
  | Send m =>
    simp only [step, Except.ok.injEq] at hok
    subst hok
    simp [Send_absent env s m hc, hc, sent_messages]
  | EstablishChannel =>
    simp only [step, Except.ok.injEq] at hok
    subst hok
    have hm := EstablishChannel_members s
    simp [hm.1, hm.2.1, hm.2.2, hc, sent_messages]
  | UpdateConnection host =>
    cases host with
    | none => exact absurd hok (UpdateConnection_no_host_never_returns env fuel s s')
    | some host =>
      have hh : host.channel = none := by
        cases hch : host.channel with
        | none => rfl
        | some channel => simp [Op.is_connect, hch] at hconnect
      have hl := flush_loop_absent env fuel s hc
      simp only [step, UpdateConnection, AddFilter, hh, OnChannelEstablished, hl] at hok
      by_cases hq : s.deferred_messages_ = []
      · simp only [hq, if_true] at hok
        split at hok
        · cases hok
        · split at hok
          · cases hok
          · cases hok
            simp [hc, hq, sent_messages]
      · simp only [hq, if_false] at hok
        split at hok
        · cases hok
        · split at hok <;> cases hok
  | OnFilterAdded channel => simp [Op.is_attach] at hattach
  | OnChannelClosing =>
    simp only [step, Except.ok.injEq] at hok
    subst hok
    simp [OnChannelClosing, sent_messages]
  | BrowserChildProcessHostConnected data =>
    simp only [step, Except.ok.injEq] at hok
    subst hok
    have hm := EstablishChannel_members s
    by_cases hg : data.process_type = env.PROCESS_TYPE_GPU
    · simp [BrowserChildProcessHostConnected, hg, hm.1, hm.2.1, hm.2.2, hc, sent_messages]
    · simp [BrowserChildProcessHostConnected, hg, hc, sent_messages]

theorem run_without_connect (env : Env) (fuel : Nat) (ops : List Op) :
    ∀ (s s' : OzoneDisplayChannelHost), s.channel_ = none →
      (∀ op ∈ ops, op.is_attach = false ∧ op.is_connect = false) →
      run env fuel s ops = .ok s' →
      s'.channel_ = none ∧ s'.channel_log = s.channel_log ∧
      s'.deferred_messages_ = s.deferred_messages_ ++ sent_messages ops := by
  induction ops with
  | nil =>
    intro s s' hc _ hok
    simp only [run, Except.ok.injEq] at hok
    subst hok
    simp [hc, sent_messages]
  | cons op ops ih =>
    intro s s' hc hops hok
    simp only [run] at hok
    cases hstep : step env fuel s op with
    | error fault => simp [hstep] at hok
    | ok s1 =>
      simp only [hstep] at hok
      have hop := hops op (by simp)
      have h1 := step_without_connect env fuel s s1 op hc hop.1 hop.2 hstep
      have h2 := ih s1 s' h1.1 (fun o ho => hops o (by simp [ho])) hok
      refine ⟨h2.1, by rw [h2.2.1, h1.2.1], ?_⟩
      rw [h2.2.2, h1.2.2, sent_messages_cons op ops, List.append_assoc]

/-- C11: `OnChannelClosing` sets `channel_` to null and leaves `deferred_messages_` as it
is.  A message passed to `Send` after that is appended at the tail of the queue with no
call on a channel; as long as no channel is attached (whatever other calls are made
that return) it stays queued and no channel sees it; the next `UpdateConnection` that
finds a process host attaching a channel hands the queue, this message included, to
that channel in order. -/
theorem closing_then_send_waits_for_next_connect (env : Env) (fuel fuel' channel : Nat)
    (s s1 : OzoneDisplayChannelHost) (m : Message) (ops : List Op)
    (hops : ∀ op ∈ ops, op.is_attach = false ∧ op.is_connect = false)
    (hrun : run env fuel (Send env (OnChannelClosing s) m).2 ops = .ok s1)
    (hfuel : s1.deferred_messages_.length ≤ fuel') :
    OnChannelClosing s = { s with channel_ := none } ∧
    Send env (OnChannelClosing s) m =
      (true, { s with
               channel_ := none
               deferred_messages_ := s.deferred_messages_ ++ [m] }) ∧
    (s1.channel_ = none ∧ s1.channel_log = s.channel_log ∧
      s1.deferred_messages_ = s.deferred_messages_ ++ [m] ++ sent_messages ops) ∧
    UpdateConnection env fuel' s1 (some { channel := some channel }) = .ok
      { s1 with
        channel_ := some channel
        deferred_messages_ := []
        channel_log := s.channel_log ++
          (s.deferred_messages_ ++ [m] ++ sent_messages ops).map (on_wire channel) } := by
  have hsend : Send env (OnChannelClosing s) m =
      (true, { s with
               channel_ := none
               deferred_messages_ := s.deferred_messages_ ++ [m] }) := by
    rw [Send_absent env (OnChannelClosing s) m rfl]
    rfl
  have h1 := run_without_connect env fuel ops (Send env (OnChannelClosing s) m).2 s1
    (by rw [hsend]) hops hrun
  rw [hsend] at h1
  simp only at h1
  refine ⟨rfl, hsend, h1, ?_⟩
  have h2 := OnChannelEstablished_present env fuel' channel (OnFilterAdded s1 channel) rfl
    (by simpa [OnFilterAdded] using hfuel)
  simp only [UpdateConnection, AddFilter, h1.1, Option.isSome_none, Bool.and_false]
  simpa [OnFilterAdded, h1.2.1, h1.2.2] using h2

/-- Scenario C for C11: three messages went to channel 7, the channel closes, a fourth
message is sent and the process is announced; the fourth message is queued, and the
connection made next on channel 8 hands it over. -/
theorem closing_then_send_waits_for_next_connect_witness :
    UpdateConnection env_debug 1
        { channel_ := none, deferred_messages_ := [title_X],
          channel_log := [on_wire 7 title_X, on_wire 7 state_2, on_wire 7 attributes_3],
          io_tasks := [.UpdateConnection, .UpdateConnection], dispatcher_log := [] }
        (some { channel := some 8 }) = .ok
      { channel_ := some 8, deferred_messages_ := [],
        channel_log :=
          [on_wire 7 title_X, on_wire 7 state_2, on_wire 7 attributes_3, on_wire 8 title_X],
        io_tasks := [.UpdateConnection, .UpdateConnection], dispatcher_log := [] } :=
  (closing_then_send_waits_for_next_connect env_debug 0 1 8
    (send_all env_debug (OnFilterAdded construct 7) [title_X, state_2, attributes_3])
    { channel_ := none, deferred_messages_ := [title_X],
      channel_log := [on_wire 7 title_X, on_wire 7 state_2, on_wire 7 attributes_3],
      io_tasks := [.UpdateConnection, .UpdateConnection], dispatcher_log := [] }
    title_X [.BrowserChildProcessHostConnected { process_type := 9 }]
    (by decide) rfl (by decide)).2.2.2

/-! ## C12 – C13: the command surface -/

/-- C12: called off the IO thread, each of `SetWidgetState`, `SetWidgetTitle` and
`SetWidgetAttributes` posts exactly one task to the IO thread, bound to the same
function with the same argument values, and returns: `channel_`, the queue, the
channel log and the dispatcher log are as before.  The channel or the queue is touched
when that task runs on the IO thread, where the task is the `Send` of the command
built from the bound arguments. -/
theorem off_thread_command_only_posts (env : Env) (s : OzoneDisplayChannelHost) :
    (∀ w state width height, SetWidgetState env false s w state width height =
      { s with io_tasks := s.io_tasks ++ [.SetWidgetState w state width height] }) ∧
    (∀ w title, SetWidgetTitle env false s w title =
      { s with io_tasks := s.io_tasks ++ [.SetWidgetTitle w title] }) ∧
    (∀ widget parent x y type, SetWidgetAttributes env false s widget parent x y type =
      { s with io_tasks := s.io_tasks ++ [.SetWidgetAttributes widget parent x y type] }) ∧
    (∀ fuel host t w state width height,
      run_task env fuel host t (.SetWidgetState w state width height) =
        .ok (Send env t (new_WaylandWindow_State CHANNEL_ROUTE_ID w state width height)).2) ∧
    (∀ fuel host t w title,
      run_task env fuel host t (.SetWidgetTitle w title) =
        .ok (Send env t (new_WaylandWindow_Title CHANNEL_ROUTE_ID w title)).2) ∧
    (∀ fuel host t widget parent x y type,
      run_task env fuel host t (.SetWidgetAttributes widget parent x y type) =
        .ok (Send env t
          (new_WaylandWindow_Attributes CHANNEL_ROUTE_ID widget parent x y type)).2) := by
  refine ⟨?_, ?_, ?_, ?_, ?_, ?_⟩ <;> intros <;>
    simp [SetWidgetState, SetWidgetTitle, SetWidgetAttributes, PostTask, run_task]

/-- C13: on the IO thread each command call is the `Send` of the command message built
from its arguments with route `CHANNEL_ROUTE_ID`, which is -1: the source functions
agree with the spec's wording of the three commands, argument for argument. -/
theorem on_thread_command_is_Send (env : Env) (s : OzoneDisplayChannelHost) :
    CHANNEL_ROUTE_ID = -1 ∧
    (∀ w state width height, SetWidgetState env true s w state width height =
      spec_setWidgetState env s w state width height) ∧
    (∀ w title, SetWidgetTitle env true s w title = spec_setWidgetTitle env s w title) ∧
    (∀ widget parent x y type, SetWidgetAttributes env true s widget parent x y type =
      spec_setWidgetAttributes env s widget parent x y type) := by
  refine ⟨rfl, ?_, ?_, ?_⟩ <;> intros <;> rfl

/-! ## C14: the process-connected notification -/

/-- C14: `BrowserChildProcessHostConnected` is `EstablishChannel` when the process type
is `PROCESS_TYPE_GPU` and leaves the host as it is for every other process type; with
`channel_` null an `UpdateConnection` task is posted exactly for the GPU type. -/
theorem process_connected_establishes_iff_gpu (env : Env) (s : OzoneDisplayChannelHost)
    (data : ChildProcessData) :
    (data.process_type = env.PROCESS_TYPE_GPU →
      BrowserChildProcessHostConnected env s data = EstablishChannel s) ∧
    (data.process_type ≠ env.PROCESS_TYPE_GPU →
      BrowserChildProcessHostConnected env s data = s) ∧
    (s.channel_ = none →
      ((BrowserChildProcessHostConnected env s data).io_tasks =
          s.io_tasks ++ [.UpdateConnection] ↔
        data.process_type = env.PROCESS_TYPE_GPU)) := by
  refine ⟨?_, ?_, ?_⟩
  · intro hg
    simp [BrowserChildProcessHostConnected, hg]
  · intro hg
    simp [BrowserChildProcessHostConnected, hg]
  · intro hc
    by_cases hg : data.process_type = env.PROCESS_TYPE_GPU
    · simp [BrowserChildProcessHostConnected, hg, EstablishChannel, PostTask, hc]
    · simp [BrowserChildProcessHostConnected, hg]

/-- An instance of C14 on the host with `channel_` null: the GPU type (9 here) posts the
task, a renderer-like type 3 changes nothing. -/
theorem process_connected_establishes_iff_gpu_witness :
    BrowserChildProcessHostConnected env_debug members_init { process_type := 9 } =
      EstablishChannel members_init ∧
    BrowserChildProcessHostConnected env_debug members_init { process_type := 3 } =
      members_init ∧
    ((BrowserChildProcessHostConnected env_debug members_init { process_type := 3 }).io_tasks =
        members_init.io_tasks ++ [.UpdateConnection] ↔
      (3 : Int) = env_debug.PROCESS_TYPE_GPU) :=
  ⟨(process_connected_establishes_iff_gpu env_debug members_init { process_type := 9 }).1 rfl,
   (process_connected_establishes_iff_gpu env_debug members_init { process_type := 3 }).2.1
     (by decide),
   (process_connected_establishes_iff_gpu env_debug members_init { process_type := 3 }).2.2
     rfl⟩

/-! ## C15: attaching does not flush -/

theorem step_keeps_queued (env : Env) (fuel : Nat) (s s' : OzoneDisplayChannelHost) (op : Op)
    (hop : ∀ host, op ≠ .UpdateConnection host) (hok : step env fuel s op = .ok s') :
    ∃ extra, s'.deferred_messages_ = s.deferred_messages_ ++ extra := by
  cases op with
  | Send m =>
    simp only [step, Except.ok.injEq] at hok
    subst hok
    cases hc : s.channel_ with
    | none => exact ⟨[m], by simp [Send_absent env s m hc]⟩
    | some channel => exact ⟨[], by simp [Send_present env s m channel hc]⟩
  | EstablishChannel =>
    simp only [step, Except.ok.injEq] at hok
    subst hok
    exact ⟨[], by simp [(EstablishChannel_members s).2.1]⟩
  | UpdateConnection host => exact absurd rfl (hop host)
  | OnFilterAdded channel =>
    simp only [step, Except.ok.injEq] at hok
    subst hok
    exact ⟨[], by simp [OnFilterAdded]⟩
  | OnChannelClosing =>
    simp only [step, Except.ok.injEq] at hok
    subst hok
    exact ⟨[], by simp [OnChannelClosing]⟩
  | BrowserChildProcessHostConnected data =>
    simp only [step, Except.ok.injEq] at hok
    subst hok
    refine ⟨[], ?_⟩
    by_cases hg : data.process_type = env.PROCESS_TYPE_GPU
    · simp [BrowserChildProcessHostConnected, hg, (EstablishChannel_members s).2.1]
    · simp [BrowserChildProcessHostConnected, hg]

/-- C15: `OnFilterAdded(channel)` stores the channel in `channel_` and does nothing else:
in every state the queue is left as it is and no call is made on the channel.  No
call other than `UpdateConnection` takes a message off the queue, and
`UpdateConnection`, run with `channel_` null and a process host that attaches the
channel, is the attach followed by `OnChannelEstablished`, which hands the whole queue
to the channel. -/
theorem OnFilterAdded_only_sets_channel (env : Env) (fuel channel : Nat)
    (s s' : OzoneDisplayChannelHost) (op : Op)
    (hop : ∀ host, op ≠ .UpdateConnection host) (hstep : step env fuel s op = .ok s')
    (habsent : s.channel_ = none) (hfuel : s.deferred_messages_.length ≤ fuel) :
    (∀ t : OzoneDisplayChannelHost,
      OnFilterAdded t channel = { t with channel_ := some channel } ∧
      (OnFilterAdded t channel).deferred_messages_ = t.deferred_messages_ ∧
      (OnFilterAdded t channel).channel_log = t.channel_log) ∧
    (∃ extra, s'.deferred_messages_ = s.deferred_messages_ ++ extra) ∧
    UpdateConnection env fuel s (some { channel := some channel }) =
      OnChannelEstablished env fuel (OnFilterAdded s channel) ∧
    OnChannelEstablished env fuel (OnFilterAdded s channel) = .ok
      { s with
        channel_ := some channel
        deferred_messages_ := []
        channel_log := s.channel_log ++ s.deferred_messages_.map (on_wire channel) } := by
  refine ⟨fun t => ⟨rfl, rfl, rfl⟩, step_keeps_queued env fuel s s' op hop hstep, ?_, ?_⟩
  · simp [UpdateConnection, AddFilter, habsent]
  · have h := OnChannelEstablished_present env fuel channel (OnFilterAdded s channel) rfl
      (by simpa [OnFilterAdded] using hfuel)
    simpa [OnFilterAdded] using h

/-- An instance of C15: with one message queued, attaching channel 7 on its own leaves
the message in the queue and the channel uncalled. -/
theorem OnFilterAdded_only_sets_channel_witness :
    run env_debug 1 (send_all env_debug construct [title_X]) [.OnFilterAdded 7] = .ok
      { channel_ := some 7, deferred_messages_ := [title_X], channel_log := [],
        io_tasks := [.UpdateConnection], dispatcher_log := [] } ∧
    UpdateConnection env_debug 1 (send_all env_debug construct [title_X])
        (some { channel := some 7 }) = .ok
      { channel_ := some 7, deferred_messages_ := [], channel_log := [on_wire 7 title_X],
        io_tasks := [.UpdateConnection], dispatcher_log := [] } :=
  ⟨rfl,
   ((OnFilterAdded_only_sets_channel env_debug 1 7 (send_all env_debug construct [title_X])
      (OnFilterAdded (send_all env_debug construct [title_X]) 7) (.OnFilterAdded 7)
      (by intro host h; cases h) rfl rfl (by decide)).2.2.1).trans
    (OnFilterAdded_only_sets_channel env_debug 1 7 (send_all env_debug construct [title_X])
      (OnFilterAdded (send_all env_debug construct [title_X]) 7) (.OnFilterAdded 7)
      (by intro host h; cases h) rfl rfl (by decide)).2.2.2⟩

/-! ## C16: the flush loop ends exactly when a channel is set -/

theorem flush_passes_present (env : Env) (channel : Nat) :
    ∀ (k : Nat) (s : OzoneDisplayChannelHost), s.channel_ = some channel →
      flush_passes env k s =
        { s with
          deferred_messages_ := s.deferred_messages_.drop k
          channel_log := s.channel_log ++ (s.deferred_messages_.take k).map (on_wire channel) } := by
  intro k
  induction k with
  | zero => intro s _; simp [flush_passes]
  | succ k ih =>
    intro s hc
    cases hq : s.deferred_messages_ with
    | nil =>
      obtain ⟨c, q0, l, t, d⟩ := s
      simp only at hq
      subst hq
      simp [flush_passes]
    | cons m rest =>
      have h1 := ih (flush_body env s m)
        (by simp [flush_body, Send_present env s m channel hc, hc])
      simp only [flush_passes, hq]
      rw [h1]
      simp [flush_body, Send_present env s m channel hc, hq]

theorem flush_passes_absent (env : Env) :
    ∀ (k : Nat) (s : OzoneDisplayChannelHost), s.channel_ = none →
      flush_passes env k s =
        { s with deferred_messages_ := s.deferred_messages_.rotate k } := by
  intro k
  induction k with
  | zero => intro s _; simp [flush_passes]
  | succ k ih =>
    intro s hc
    cases hq : s.deferred_messages_ with
    | nil =>
      obtain ⟨c, q0, l, t, d⟩ := s
      simp only at hq
      subst hq
      simp [flush_passes]
    | cons m rest =>
      have h1 := ih (flush_body env s m) (by simp [flush_body, Send_absent env s m hc, hc])
      simp only [flush_passes, hq]
      rw [h1]
      simp [flush_body, Send_absent env s m hc, hq, List.rotate_cons_succ]

/-- C16: with `channel_` set and `n` messages queued, every pass of the flush loop (one
`Send` of the front message, one `pop`) makes the queue one shorter, after `k ≤ n`
passes `n - k` messages are left, after `n` passes the queue is empty, and the loop
ends after exactly `n` passes: a budget of `n` or more passes gives the result, a
smaller one does not.  With `channel_` null and a non-empty queue every pass puts the
front message back at the tail before popping it, so the queue keeps its length and
the loop never ends; `OnChannelEstablished` then stops at `DCHECK(channel_)` when
`DCHECK` is compiled in and runs out of every budget otherwise. -/
theorem flush_loop_ends_iff_channel_set (env : Env) (s : OzoneDisplayChannelHost)
    (channel : Nat) :
    (s.channel_ = some channel →
      (∀ k, k ≤ s.deferred_messages_.length →
        (flush_passes env k s).deferred_messages_.length = s.deferred_messages_.length - k) ∧
      (∀ k, k < s.deferred_messages_.length →
        (flush_passes env (k + 1) s).deferred_messages_.length + 1 =
          (flush_passes env k s).deferred_messages_.length) ∧
      (flush_passes env s.deferred_messages_.length s).deferred_messages_ = [] ∧
      (∀ fuel, flush_loop env fuel s =
        if s.deferred_messages_.length ≤ fuel
        then some (flush_passes env s.deferred_messages_.length s) else none)) ∧
    (s.channel_ = none → s.deferred_messages_ ≠ [] →
      (∀ k, (flush_passes env k s).deferred_messages_ = s.deferred_messages_.rotate k ∧
        (flush_passes env k s).deferred_messages_.length = s.deferred_messages_.length) ∧
      (∀ fuel, flush_loop env fuel s = none) ∧
      (∀ fuel, OnChannelEstablished env fuel s =
        .error (if env.dcheck_on then .dcheck_channel else .out_of_fuel))) := by
  constructor
  · intro hc
    have hp := fun k => flush_passes_present env channel k s hc
    refine ⟨?_, ?_, ?_, ?_⟩
    · intro k _
      rw [hp k]
      simp
    · intro k hk
      rw [hp k, hp (k + 1)]
      simp only [List.length_drop]
      omega
    · rw [hp _]
      simp
    · intro fuel
      by_cases hlen : s.deferred_messages_.length ≤ fuel
      · rw [flush_loop_present env channel _ fuel s hc rfl hlen, hp _]
        simp [hlen]
      · rw [flush_loop_short env channel _ fuel s hc rfl (by omega)]
        simp [hlen]
  · intro hc hq
    have hl : ∀ fuel, flush_loop env fuel s = none := by
      intro fuel
      rw [flush_loop_absent env fuel s hc]
      simp [hq]
    refine ⟨?_, hl, ?_⟩
    · intro k
      rw [flush_passes_absent env k s hc]
      simp
    · intro fuel
      cases hd : env.dcheck_on <;> simp [OnChannelEstablished, hd, hc, hl fuel]

/-- An instance of C16: three messages and channel 7 set, the loop ends after three
passes with the queue empty; one message and `channel_` null, the loop does not end. -/
theorem flush_loop_ends_iff_channel_set_witness :
    (flush_passes env_release 3
      (OnFilterAdded (send_all env_release construct [title_X, state_2, attributes_3])
        7)).deferred_messages_ = [] ∧
    (∀ fuel, flush_loop env_release fuel (send_all env_release construct [title_X]) = none) :=
  ⟨((flush_loop_ends_iff_channel_set env_release
      (OnFilterAdded (send_all env_release construct [title_X, state_2, attributes_3]) 7) 7).1
      rfl).2.2.1,
   ((flush_loop_ends_iff_channel_set env_release (send_all env_release construct [title_X])
      0).2 rfl (by decide)).2.1⟩

end ozonewayland
